import Mathlib

/-!
Verification of the nas-av1-pipeline scheduler and state machine.

This file gives a shallow embedding, in Lean 4, of the parts of the
repository that the frozen claims are about:

* `src/pipeline/state.py` — the durable State Store (`PipelineState.set_file`,
  `PipelineState.get_file`), modelled as a pure map from source filepaths to
  records, where a record is a map from field names to JSON-like values.
* `src/pipeline/control.py` — the control channel (`_find_control_file`,
  `_read_control_file`, `_get_pause_type`), modelled over an abstract
  control-directory state that records which control files exist and what
  they contain.
* `src/pipeline/config.py` — `get_res_key` and `resolve_encode_params`.
* `src/pipeline/runner.py` — `Pipeline._apply_gentle_overrides` and the
  zombie-recovery entry block of `Pipeline.process_item`.
* `src/pipeline/stages.py` — `stage_fetch` (pre-flight gates and the atomic
  FETCHING claim), `stage_upload`, and `stage_replace` (the four-step rename
  protocol), over an abstract filesystem `String → Option FileContent`.
* `src/pipeline/queue.py` — `build_priority_queue`.

Operating-system effects (directory walks, disk-usage queries, copies,
renames) are modelled as explicit inputs or as updates of the abstract
filesystem map; wall-clock timestamps are passed in as an explicit `now`
argument.  Python dictionaries are modelled as functions `String → Option Val`
with pointwise update, which matches `dict.__setitem__` / `dict.update`.
-/

/-- JSON-like field values stored in a FileRecord (Python dict values). -/
inductive Val where
  | str (s : String)
  | int (n : Int)
  | bool (b : Bool)
deriving DecidableEq, Repr

/-- The per-file statuses of `pipeline.state.FileStatus`. -/
inductive FileStatus where
  | pending
  | fetching
  | fetched
  | encoding
  | encoded
  | uploading
  | uploaded
  | verified
  | replacing
  | replaced
  | skipped
  | error
deriving DecidableEq, Repr

/-- The `.value` string of each `FileStatus` enum member. -/
def FileStatus.value : FileStatus → String
  | .pending => "pending"
  | .fetching => "fetching"
  | .fetched => "fetched"
  | .encoding => "encoding"
  | .encoded => "encoded"
  | .uploading => "uploading"
  | .uploaded => "uploaded"
  | .verified => "verified"
  | .replacing => "replacing"
  | .replaced => "replaced"
  | .skipped => "skipped"
  | .error => "error"

/-- A FileRecord: a Python dict from field names to values. -/
def Entry : Type := String → Option Val

/-- Python `entry[k] = v`. -/
def Entry.set (e : Entry) (k : String) (v : Val) : Entry :=
  fun q => if q = k then some v else e q

/-- Python `entry.update(kwargs)`: later keys win. -/
def Entry.setAll (e : Entry) : List (String × Val) → Entry
  | [] => e
  | (k, v) :: rest => Entry.setAll (e.set k v) rest

/-- The empty dict. -/
def emptyEntry : Entry := fun _ => none

/-- The `files` map of `PipelineState.data`, keyed by source filepath. -/
def Store : Type := String → Option Entry

/-- Embedding of `PipelineState.set_file` (src/pipeline/state.py lines 69-81).

If the filepath is untracked, a fresh record `{status, added: now}` is
created; then `status` and `last_updated` are assigned and the keyword
arguments are merged in with `entry.update(kwargs)`.  The wall-clock reads
`datetime.now().isoformat()` are modelled by the explicit `now` argument. -/
def set_file (st : Store) (filepath : String) (status : FileStatus)
    (kwargs : List (String × Val)) (now : String) : Store :=
  let base : Entry :=
    match st filepath with
    | some e => e
    | none => (emptyEntry.set "status" (Val.str status.value)).set "added" (Val.str now)
  let e1 := base.set "status" (Val.str status.value)
  let e2 := e1.set "last_updated" (Val.str now)
  let e3 := e2.setAll kwargs
  fun q => if q = filepath then some e3 else st q

/-- Embedding of `PipelineState.get_file` (the defensive `dict(entry)` copy
is identity in a pure model). -/
def get_file (st : Store) (filepath : String) : Option Entry := st filepath

/-- Convenience: read one field of one record. -/
def getField (st : Store) (filepath k : String) : Option Val :=
  (st filepath).bind (fun e => e k)

/-- The `status` field of a record, as a string. -/
def getStatus (st : Store) (filepath : String) : Option Val :=
  getField st filepath "status"

theorem Entry.setAll_not_mem (e : Entry) (kvs : List (String × Val)) (k : String)
    (hk : k ∉ kvs.map Prod.fst) : Entry.setAll e kvs k = e k := by
  induction kvs generalizing e with
  | nil => rfl
  | cons hd tl ih =>
      simp only [List.map_cons, List.mem_cons] at hk
      push_neg at hk
      simp only [Entry.setAll, ih _ hk.2, Entry.set, if_neg hk.1]

theorem Entry.set_ne (e : Entry) (k k2 : String) (v : Val) (h : k2 ≠ k) :
    Entry.set e k v k2 = e k2 := by
  simp [Entry.set, h]

/-- Claim C10 (amended): `set_file` on an existing record is a merge — every
field other than `status`, `last_updated` and the explicitly passed keyword
fields keeps its previous value (in particular `added` is preserved whenever
it is not explicitly passed), and records at other filepaths are untouched.
The `added` timestamp is written at creation; it is preserved by every later
call that does not pass an `added` keyword, but an explicit `added` keyword
argument does overwrite it (see the counterexample). -/
theorem set_file_merges (st : Store) (fp : String) (status : FileStatus)
    (kwargs : List (String × Val)) (now : String) (e : Entry)
    (hex : st fp = some e) (k : String)
    (hk1 : k ≠ "status") (hk2 : k ≠ "last_updated")
    (hk3 : k ∉ kwargs.map Prod.fst) :
    getField (set_file st fp status kwargs now) fp k = e k ∧
      ∀ fp2, fp2 ≠ fp → set_file st fp status kwargs now fp2 = st fp2 := by
  constructor
  · simp only [getField, set_file, hex, if_pos rfl, Option.some_bind]
    rw [Entry.setAll_not_mem _ _ _ hk3, Entry.set_ne _ _ _ _ hk2,
      Entry.set_ne _ _ _ _ hk1]
  · intro fp2 h2
    simp [set_file, h2]

/-- Witness for `set_file_merges` at a concrete store and call. -/
theorem set_file_merges_witness :
    getField
      (set_file
        (fun q => if q = "a" then some ((emptyEntry.set "status" (Val.str "pending")).set "x" (Val.int 7)) else none)
        "a" FileStatus.fetched [("local_path", Val.str "L")] "t2")
      "a" "x" = some (Val.int 7) := by
  have h := set_file_merges
    (fun q => if q = "a" then some ((emptyEntry.set "status" (Val.str "pending")).set "x" (Val.int 7)) else none)
    "a" FileStatus.fetched [("local_path", Val.str "L")] "t2"
    ((emptyEntry.set "status" (Val.str "pending")).set "x" (Val.int 7))
    (by simp) "x" (by decide) (by decide) (by decide)
  rw [h.1]
  rfl

/-- Claim C10, counterexample to the claim as stated: `entry.update(kwargs)`
runs last in `set_file`, so a call that explicitly passes an `added` keyword
overwrites the creation timestamp of an existing record — `added` is not
"never overwritten afterwards". -/
theorem set_file_overwrites_added_cex :
    getField
      (fun q => if q = "a" then some ((emptyEntry.set "status" (Val.str "pending")).set "added" (Val.str "t0")) else none)
      "a" "added" = some (Val.str "t0") ∧
    getField
      (set_file
        (fun q => if q = "a" then some ((emptyEntry.set "status" (Val.str "pending")).set "added" (Val.str "t0")) else none)
        "a" FileStatus.fetched [("added", Val.str "t1")] "t2")
      "a" "added" = some (Val.str "t1") := by
  constructor
  · rfl
  · rfl

/-! ## Control channel (src/pipeline/control.py) -/

/-- State of one file inside the control directory: absent, present but
empty, present with a parsed JSON object (modelled as a string-valued
key lookup), or present but unreadable (JSON/OS error on read). -/
inductive CtrlFile where
  | absent
  | empty
  | valid (d : String → Option String)
  | malformed

/-- Python truthiness of `os.path.exists` for a control file. -/
def CtrlFile.isPresent : CtrlFile → Bool
  | .absent => false
  | _ => true

/-- The control directory: file name inside `control/` to its state. -/
def ControlDir : Type := String → CtrlFile

/-- The control-relevant filesystem: the bare `PAUSE` sentinel in the
parent staging directory, plus the control directory itself. -/
structure ControlFS where
  pause_sentinel : Bool
  dir : ControlDir

/-- A parsed control document (a JSON object read as string-valued keys). -/
def Doc : Type := String → Option String

/-- The `_ALIASES` table: alias file name, canonical name, implied `type`. -/
def ALIASES : List (String × String × String) :=
  [("pause_all.json", "pause.json", "all"),
   ("pause_fetch.json", "pause.json", "fetch_only"),
   ("pause_encode.json", "pause.json", "encode_only")]

/-- The implicit payload an alias carries. -/
def aliasImplicit (t : String) : List (String × String) := [("type", t)]

/-- Python dict merge as in `merged = {**data, **implicit_data}`: keys of
the implicit payload take priority over the document's own keys. -/
def mergeDoc (data : Doc) (implicit : List (String × String)) : Doc :=
  fun k =>
    match implicit.lookup k with
    | some v => some v
    | none => data k

/-- A document holding exactly an implicit payload (`return implicit_data`). -/
def docOfList (l : List (String × String)) : Doc := fun k => l.lookup k

/-- The alias scan inside `_find_control_file`: first alias of the given
canonical name whose file exists wins (Python dict iteration order). -/
def find_alias (dir : ControlDir) (canonical : String) :
    List (String × String × String) → Option (CtrlFile × List (String × String))
  | [] => none
  | (alias_name, canon, t) :: rest =>
      if canon = canonical ∧ (dir alias_name).isPresent = true then
        some (dir alias_name, aliasImplicit t)
      else find_alias dir canonical rest

/-- Embedding of `PipelineControl._find_control_file` (control.py lines
60-78): the canonical file is checked first and carries no implicit data;
otherwise the aliases are scanned in table order. -/
def find_control_file (fs : ControlFS) (canonical : String) :
    Option (CtrlFile × List (String × String)) :=
  if (fs.dir canonical).isPresent = true then some (fs.dir canonical, [])
  else find_alias fs.dir canonical ALIASES

/-- Embedding of `PipelineControl._read_control_file` (control.py lines
80-110).  An empty file parses as the empty object; a readable file is
merged with the alias-implied payload (implicit keys win); an unreadable
file falls back to the implicit payload when that payload is non-empty.
The mtime cache is semantically transparent and is omitted. -/
def read_control_file (fs : ControlFS) (canonical : String) : Option Doc :=
  match find_control_file fs canonical with
  | none => none
  | some (.absent, _) => none
  | some (.empty, implicit) => some (mergeDoc (fun _ => none) implicit)
  | some (.valid d, implicit) => some (mergeDoc d implicit)
  | some (.malformed, implicit) =>
      if implicit.isEmpty then none else some (docOfList implicit)

/-- Embedding of `PipelineControl._get_pause_type` (control.py lines
117-124): the bare `PAUSE` sentinel means "all"; otherwise the pause
document decides, with `pause.get("type", "all")`. -/
def get_pause_type (fs : ControlFS) : Option String :=
  if fs.pause_sentinel then some "all"
  else
    match read_control_file fs "pause.json" with
    | none => none
    | some d => some ((d "type").getD "all")

/-- Embedding of `PipelineControl.is_fetch_paused`. -/
def is_fetch_paused (fs : ControlFS) : Bool :=
  match get_pause_type fs with
  | some t => t = "all" ∨ t = "fetch_only"
  | none => false

/-- Embedding of `PipelineControl.is_encode_paused`. -/
def is_encode_paused (fs : ControlFS) : Bool :=
  match get_pause_type fs with
  | some t => t = "all" ∨ t = "encode_only"
  | none => false

/-- Claim C6: when a pause alias file is the one that signals the pause
(the canonical `pause.json` is absent, and the alias is the first present
one in table order), the pause type is the alias-implied one — whatever the
alias file itself contains, including a document with a conflicting `type`
field, and whether it is empty, well-formed or malformed.  The canonical
document's own `type` field never overrides an alias-implied type, since
the alias-implied payload is merged last. -/
theorem alias_type_takes_precedence (fs : ControlFS)
    (hs : fs.pause_sentinel = false)
    (hc : (fs.dir "pause.json").isPresent = false) :
    ((fs.dir "pause_all.json").isPresent = true →
        get_pause_type fs = some "all") ∧
    ((fs.dir "pause_all.json").isPresent = false →
      (fs.dir "pause_fetch.json").isPresent = true →
        get_pause_type fs = some "fetch_only") ∧
    ((fs.dir "pause_all.json").isPresent = false →
      (fs.dir "pause_fetch.json").isPresent = false →
      (fs.dir "pause_encode.json").isPresent = true →
        get_pause_type fs = some "encode_only") := by
  refine ⟨?_, ?_, ?_⟩
  · intro h1
    simp only [get_pause_type, hs, if_neg Bool.false_ne_true, read_control_file,
      find_control_file, hc, if_neg Bool.false_ne_true, ALIASES, find_alias,
      if_pos (And.intro rfl h1)]
    cases hfile : fs.dir "pause_all.json" with
    | absent => rw [hfile] at h1; exact absurd h1 (by decide)
    | empty => rfl
    | valid d => rfl
    | malformed => rfl
  · intro h1 h2
    simp only [get_pause_type, hs, if_neg Bool.false_ne_true, read_control_file,
      find_control_file, hc, if_neg Bool.false_ne_true, ALIASES, find_alias]
    rw [if_neg (by simp [h1]),
      if_pos (⟨trivial, h2⟩ : True ∧ (fs.dir "pause_fetch.json").isPresent = true)]
    cases hfile : fs.dir "pause_fetch.json" with
    | absent => rw [hfile] at h2; exact absurd h2 (by decide)
    | empty => rfl
    | valid d => rfl
    | malformed => rfl
  · intro h1 h2 h3
    simp only [get_pause_type, hs, if_neg Bool.false_ne_true, read_control_file,
      find_control_file, hc, if_neg Bool.false_ne_true, ALIASES, find_alias]
    rw [if_neg (by simp [h1]), if_neg (by simp [h2]),
      if_pos (⟨trivial, h3⟩ : True ∧ (fs.dir "pause_encode.json").isPresent = true)]
    cases hfile : fs.dir "pause_encode.json" with
    | absent => rw [hfile] at h3; exact absurd h3 (by decide)
    | empty => rfl
    | valid d => rfl
    | malformed => rfl

/-- Witness for `alias_type_takes_precedence`: a `pause_all.json` whose own
document says `type: encode_only` still pauses with type `all`. -/
theorem alias_type_takes_precedence_witness :
    get_pause_type
      { pause_sentinel := false,
        dir := fun name =>
          if name = "pause_all.json" then
            CtrlFile.valid (fun k => if k = "type" then some "encode_only" else none)
          else CtrlFile.absent } = some "all" := by
  exact (alias_type_takes_precedence
    { pause_sentinel := false,
      dir := fun name =>
        if name = "pause_all.json" then
          CtrlFile.valid (fun k => if k = "type" then some "encode_only" else none)
        else CtrlFile.absent } rfl rfl).1 rfl

/-! ## Configuration and encode-parameter resolution (src/pipeline/config.py) -/

/-- One audio stream of a media-report entry (report schema, spec 6.1). -/
structure AudioStream where
  codec : String
  codec_raw : String
  lossless : Bool
  channels : Nat
  language : String
deriving DecidableEq, Repr

/-- A queue item as built by `build_priority_queue` (queue.py lines 57-73). -/
structure WorkItem where
  filepath : String
  filename : String
  file_size_bytes : Nat
  file_size_gb : Rat
  duration_seconds : Rat
  video_codec : String
  resolution : String
  bitrate_kbps : Rat
  hdr : Bool
  bit_depth : Nat
  audio_streams : List AudioStream
  subtitle_count : Nat
  library_type : String
  priority_tier : Nat
  tier_name : String
deriving DecidableEq, Repr

/-- One entry of `config["priority_tiers"]`.  `min_bitrate_kbps` and
`max_bitrate_kbps` are optional dict keys, read with
`tier.get("min_bitrate_kbps", 0)` and `tier.get("max_bitrate_kbps", inf)`;
`none` models the absent key. -/
structure Tier where
  name : String
  codec : Option String
  resolution : Option String
  min_bitrate_kbps : Option Rat
  max_bitrate_kbps : Option Rat
deriving DecidableEq, Repr

/-- The pipeline configuration dict; two-level tables such as
`config["cq"][content_type][res_key]` are modelled as functions returning
`Option` so that an absent key is representable (direct indexing on an
absent key is a Python `KeyError`). -/
structure Config where
  cq : String → String → Option Int
  nvenc_preset : String → String → Option String
  nvenc_multipass : String → String → Option String
  nvenc_lookahead : String → String → Option Int
  nvenc_maxrate : String → String → Option String
  nvenc_bufsize : String → String → Option String
  overwrite_existing : Bool
  replace_original : Bool
  max_staging_bytes : Nat
  max_fetch_buffer_bytes : Nat
  min_free_space_bytes : Nat
  verify_duration_tolerance_secs : Rat
  priority_tiers : List Tier

/-- Embedding of `get_res_key` (config.py lines 72-82). -/
def get_res_key (item : WorkItem) : String :=
  if item.resolution = "4K" ∧ item.hdr = true then "4K_HDR"
  else if item.resolution = "4K" then "4K_SDR"
  else if item.resolution ∈ ["1080p", "720p", "480p", "SD"] then item.resolution
  else "SD"

/-- The `content_type` computed in `resolve_encode_params`. -/
def content_type_of (item : WorkItem) : String :=
  if item.library_type ∈ ["series", "show", "tv", "anime"] then "series" else "movie"

/-- The result of `resolve_encode_params` (config.py lines 85-114). -/
structure EncodeParams where
  cq : Int
  preset : String
  multipass : String
  lookahead : Int
  maxrate : Option String
  bufsize : Option String
  content_type : String
  res_key : String
deriving DecidableEq, Repr

/-- Embedding of `resolve_encode_params` (config.py lines 85-114): a
two-level lookup `content_type × res_key` with fallbacks 30, "p4",
"disabled", 16, None, None. -/
def resolve_encode_params (config : Config) (item : WorkItem) : EncodeParams :=
  let content_type := content_type_of item
  let res_key := get_res_key item
  { cq := (config.cq content_type res_key).getD 30,
    preset := (config.nvenc_preset content_type res_key).getD "p4",
    multipass := (config.nvenc_multipass content_type res_key).getD "disabled",
    lookahead := (config.nvenc_lookahead content_type res_key).getD 16,
    maxrate := config.nvenc_maxrate content_type res_key,
    bufsize := config.nvenc_bufsize content_type res_key,
    content_type := content_type,
    res_key := res_key }

/-! ## Gentle overrides (src/pipeline/runner.py, `_apply_gentle_overrides`) -/

/-- A matched override record from `gentle.json`: optional keys
`cq_offset`, `cq`, `preset`. -/
structure GentleOverride where
  cq_offset : Option Int
  cq : Option Int
  preset : Option String
deriving DecidableEq, Repr

/-- Write `config["cq"][ct][rk] = v` on the (deep-copied) config. -/
def updateCq (config : Config) (ct rk : String) (v : Int) : Config :=
  { config with cq := fun a b => if a = ct ∧ b = rk then some v else config.cq a b }

/-- Write `config["nvenc_preset"][ct][rk] = p` on the (deep-copied) config. -/
def updatePreset (config : Config) (ct rk : String) (p : String) : Config :=
  { config with nvenc_preset := fun a b => if a = ct ∧ b = rk then some p else config.nvenc_preset a b }

/-- Embedding of `Pipeline._apply_gentle_overrides` (runner.py lines
150-174).  The `overrides` argument is the record returned by
`control.get_gentle_override` for the item (`none` — no match — returns the
configuration unchanged).  A `cq_offset` override is applied first, reading
the current value with direct indexing (`none` result models the KeyError
on an absent key); a `cq` override is applied after it and therefore wins;
a `preset` override only touches the preset table. -/
def apply_gentle_overrides (config : Config) (item : WorkItem)
    (overrides : Option GentleOverride) : Option Config :=
  match overrides with
  | none => some config
  | some o =>
    let params := resolve_encode_params config item
    let ct := params.content_type
    let rk := params.res_key
    let step1 : Option Config :=
      match o.cq_offset with
      | some off =>
          match config.cq ct rk with
          | some current_cq => some (updateCq config ct rk (max 1 (current_cq + off)))
          | none => none
      | none => some config
    match step1 with
    | none => none
    | some c1 =>
      let c2 :=
        match o.cq with
        | some v => updateCq c1 ct rk v
        | none => c1
      let c3 :=
        match o.preset with
        | some p => updatePreset c2 ct rk p
        | none => c2
      some c3

theorem updatePreset_cq (config : Config) (ct rk : String) (p : String) :
    (updatePreset config ct rk p).cq = config.cq := rfl

theorem resolve_content_type (config : Config) (item : WorkItem) :
    (resolve_encode_params config item).content_type = content_type_of item := rfl

theorem resolve_res_key (config : Config) (item : WorkItem) :
    (resolve_encode_params config item).res_key = get_res_key item := rfl

theorem resolve_cq_updateCq (config : Config) (item : WorkItem) (v : Int) :
    (resolve_encode_params
        (updateCq config (content_type_of item) (get_res_key item) v) item).cq = v := by
  simp [resolve_encode_params, updateCq]

/-- Claim C7: when the matched gentle override provides both `cq` and
`cq_offset`, the absolute `cq` value wins and determines the effective
quality index; when only `cq_offset` is provided, the effective quality
index is the configured default for the item's content type and res key
plus the offset, floored at 1.  The hypothesis `hd` says the config's cq
table has an entry for the item (direct indexing in the source). -/
theorem gentle_override_cq_semantics (config : Config) (item : WorkItem)
    (o : GentleOverride) (d : Int)
    (hd : config.cq (content_type_of item) (get_res_key item) = some d) :
    (∀ v off, o.cq = some v → o.cq_offset = some off →
       ∃ c2, apply_gentle_overrides config item (some o) = some c2 ∧
         (resolve_encode_params c2 item).cq = v) ∧
    (∀ off, o.cq = none → o.cq_offset = some off →
       ∃ c2, apply_gentle_overrides config item (some o) = some c2 ∧
         (resolve_encode_params c2 item).cq = max 1 (d + off)) := by
  obtain ⟨ocqoff, ocq, opreset⟩ := o
  constructor
  · intro v off hcq hoff
    simp only at hcq hoff
    subst hcq; subst hoff
    cases opreset with
    | none =>
        simp only [apply_gentle_overrides, resolve_content_type, resolve_res_key, hd]
        refine ⟨_, rfl, ?_⟩
        simp [resolve_encode_params, updateCq]
    | some p =>
        simp only [apply_gentle_overrides, resolve_content_type, resolve_res_key, hd]
        refine ⟨_, rfl, ?_⟩
        simp [resolve_encode_params, updatePreset, updateCq]
  · intro off hcq hoff
    simp only at hcq hoff
    subst hcq; subst hoff
    cases opreset with
    | none =>
        simp only [apply_gentle_overrides, resolve_content_type, resolve_res_key, hd]
        refine ⟨_, rfl, ?_⟩
        simp [resolve_encode_params, updateCq]
    | some p =>
        simp only [apply_gentle_overrides, resolve_content_type, resolve_res_key, hd]
        refine ⟨_, rfl, ?_⟩
        simp [resolve_encode_params, updatePreset, updateCq]

/-- Witness for `gentle_override_cq_semantics`: a movie/1080p item with
default CQ 28 and override `cq_offset = -3` encodes at CQ 25; with an
additional absolute `cq = 20` the absolute value wins. -/
theorem gentle_override_cq_semantics_witness :
    (∃ c2, apply_gentle_overrides
        { cq := fun ct rk => if ct = "movie" ∧ rk = "1080p" then some 28 else none,
          nvenc_preset := fun _ _ => none, nvenc_multipass := fun _ _ => none,
          nvenc_lookahead := fun _ _ => none, nvenc_maxrate := fun _ _ => none,
          nvenc_bufsize := fun _ _ => none, overwrite_existing := false,
          replace_original := true, max_staging_bytes := 0,
          max_fetch_buffer_bytes := 0, min_free_space_bytes := 0,
          verify_duration_tolerance_secs := 2, priority_tiers := [] }
        { filepath := "/nas/a.mkv", filename := "a.mkv", file_size_bytes := 10,
          file_size_gb := 1, duration_seconds := 100, video_codec := "H.264",
          resolution := "1080p", bitrate_kbps := 5000, hdr := false,
          bit_depth := 8, audio_streams := [], subtitle_count := 0,
          library_type := "movie", priority_tier := 0, tier_name := "t" }
        (some { cq_offset := some (-3), cq := none, preset := none }) = some c2 ∧
      (resolve_encode_params c2
        { filepath := "/nas/a.mkv", filename := "a.mkv", file_size_bytes := 10,
          file_size_gb := 1, duration_seconds := 100, video_codec := "H.264",
          resolution := "1080p", bitrate_kbps := 5000, hdr := false,
          bit_depth := 8, audio_streams := [], subtitle_count := 0,
          library_type := "movie", priority_tier := 0, tier_name := "t" }).cq
        = max 1 (28 + (-3))) := by
  exact (gentle_override_cq_semantics
    { cq := fun ct rk => if ct = "movie" ∧ rk = "1080p" then some 28 else none,
      nvenc_preset := fun _ _ => none, nvenc_multipass := fun _ _ => none,
      nvenc_lookahead := fun _ _ => none, nvenc_maxrate := fun _ _ => none,
      nvenc_bufsize := fun _ _ => none, overwrite_existing := false,
      replace_original := true, max_staging_bytes := 0,
      max_fetch_buffer_bytes := 0, min_free_space_bytes := 0,
      verify_duration_tolerance_secs := 2, priority_tiers := [] }
    { filepath := "/nas/a.mkv", filename := "a.mkv", file_size_bytes := 10,
      file_size_gb := 1, duration_seconds := 100, video_codec := "H.264",
      resolution := "1080p", bitrate_kbps := 5000, hdr := false,
      bit_depth := 8, audio_streams := [], subtitle_count := 0,
      library_type := "movie", priority_tier := 0, tier_name := "t" }
    { cq_offset := some (-3), cq := none, preset := none } 28
    (by decide)).2 (-3) rfl rfl

/-! ## Abstract filesystem and path helpers -/

/-- Content of a file in the abstract filesystem. -/
inductive FileContent where
  | original
  | av1
  | data (tag : String)
deriving DecidableEq, Repr

/-- The filesystem: a partial map from absolute paths to file contents. -/
def FS : Type := String → Option FileContent

/-- Python `os.path.exists`. -/
def fsExists (fs : FS) (p : String) : Bool := (fs p).isSome

/-- Python `os.remove` (on an existing path). -/
def fsRemove (fs : FS) (p : String) : FS := fun q => if q = p then none else fs q

/-- Python `os.rename` / `os.replace`: move the content at `src` to `dst`
(overwriting `dst`), leaving `src` absent. -/
def fsRename (fs : FS) (src dst : String) : FS :=
  fun q => if q = dst then fs src else if q = src then none else fs q

/-- Python `shutil.copy2`: duplicate the content at `src` into `dst`. -/
def fsCopy (fs : FS) (src dst : String) : FS :=
  fun q => if q = dst then fs src else fs q

/-- Split a character list at its last occurrence of `c`, returning the
parts before and after it, or `none` when `c` does not occur. -/
def splitLast (c : Char) : List Char → Option (List Char × List Char)
  | [] => none
  | x :: xs =>
      match splitLast c xs with
      | some (pre, post) => some (x :: pre, post)
      | none => if x = c then some ([], xs) else none

/-- Model of `os.path.dirname` for forward-slash paths. -/
def dirname (p : String) : String :=
  match splitLast '/' p.toList with
  | some (pre, _) => String.mk pre
  | none => ""

/-- Model of `os.path.join` for forward-slash paths. -/
def joinPath (a b : String) : String := a ++ "/" ++ b

/-- Model of `pathlib.Path(name).stem`: the name with its last suffix
stripped (names without a dot are returned unchanged). -/
def stem (name : String) : String :=
  match splitLast '.' name.toList with
  | some (pre, _) => String.mk pre
  | none => name

/-! ## Fetch stage (src/pipeline/stages.py, `stage_fetch`) -/

/-- Environment readings made by `stage_fetch`: the results of
`get_staging_usage(staging_dir)` (an `os.walk` byte sum), of
`get_free_space(staging_dir)` (`shutil.disk_usage`), of the
`os.listdir(fetch_dir)` byte sum, the md5 12-hex-digit prefix used for the
safe name, whether the `shutil.copy2` call succeeds, its error text when it
fails, and the wall clock. -/
structure FetchEnv where
  staging_usage : Nat
  free_space : Nat
  fetch_usage : Nat
  hash12 : String → String
  copy_ok : Bool
  copy_error : String
  now : String

/-- Embedding of the atomic FETCHING claim of `stage_fetch` (stages.py
lines 75-82): the block executed inside the single critical section on
`state._lock`.  If the record's status is already FETCHING, return `false`
with the store untouched; otherwise set status to FETCHING and record the
intended local path. -/
def fetch_claim (st : Store) (source local_path : String) (now : String) : Bool × Store :=
  let current := getField st source "status"
  if current = some (Val.str FileStatus.fetching.value) then (false, st)
  else (true, set_file st source FileStatus.fetching [("local_path", Val.str local_path)] now)

/-- Embedding of `stage_fetch` (stages.py lines 34-103).  Returns the
`Optional[str]` result together with the updated store and filesystem.
The three pre-flight gates are checked in source order; then the source
existence check, the atomic claim, and the copy (whose success is an
environment input). -/
def stage_fetch (item : WorkItem) (staging_dir : String) (config : Config)
    (st : Store) (fs : FS) (env : FetchEnv) : Option String × Store × FS :=
  let source := item.filepath
  let fetch_dir := joinPath staging_dir "fetch"
  let safe_name := env.hash12 source ++ "_" ++ item.filename
  let local_path := joinPath fetch_dir safe_name
  let file_size := item.file_size_bytes
  if env.staging_usage + file_size > config.max_staging_bytes then (none, st, fs)
  else if env.free_space < config.min_free_space_bytes + file_size then (none, st, fs)
  else if env.fetch_usage + file_size > config.max_fetch_buffer_bytes then (none, st, fs)
  else if fsExists fs source = false then
    (none, set_file st source FileStatus.skipped
      [("reason", Val.str "source file not found")] env.now, fs)
  else
    match fetch_claim st source local_path env.now with
    | (false, st1) => (none, st1, fs)
    | (true, st1) =>
        if env.copy_ok then
          (some local_path,
           set_file st1 source FileStatus.fetched
             [("local_path", Val.str local_path)] env.now,
           fsCopy fs source local_path)
        else
          (none,
           set_file st1 source FileStatus.error
             [("error", Val.str env.copy_error), ("stage", Val.str "fetch")] env.now,
           fsRemove fs local_path)

/-- Claim C4: when any of the three pre-flight gates fails — staging usage
plus item size over the staging budget, free space below the configured
floor plus item size, or fetch-subdirectory usage plus item size over the
fetch buffer budget — `stage_fetch` returns failure (`None`) and leaves the
State Store (hence the item's FileRecord) and the filesystem completely
unchanged. -/
theorem stage_fetch_gate_no_state_change (item : WorkItem) (staging_dir : String)
    (config : Config) (st : Store) (fs : FS) (env : FetchEnv)
    (h : env.staging_usage + item.file_size_bytes > config.max_staging_bytes ∨
         env.free_space < config.min_free_space_bytes + item.file_size_bytes ∨
         env.fetch_usage + item.file_size_bytes > config.max_fetch_buffer_bytes) :
    stage_fetch item staging_dir config st fs env = (none, st, fs) := by
  simp only [stage_fetch]
  rcases h with h1 | h23
  · rw [if_pos h1]
  · rcases h23 with h2 | h3
    · by_cases h1 : env.staging_usage + item.file_size_bytes > config.max_staging_bytes
      · rw [if_pos h1]
      · rw [if_neg h1, if_pos h2]
    · by_cases h1 : env.staging_usage + item.file_size_bytes > config.max_staging_bytes
      · rw [if_pos h1]
      · rw [if_neg h1]
        by_cases h2 : env.free_space < config.min_free_space_bytes + item.file_size_bytes
        · rw [if_pos h2]
        · rw [if_neg h2, if_pos h3]

/-- Witness for `stage_fetch_gate_no_state_change`: a 10-byte item against
a 5-byte staging budget is rejected with no state transition. -/
theorem stage_fetch_gate_no_state_change_witness :
    stage_fetch
      { filepath := "/nas/a.mkv", filename := "a.mkv", file_size_bytes := 10,
        file_size_gb := 1, duration_seconds := 100, video_codec := "H.264",
        resolution := "1080p", bitrate_kbps := 5000, hdr := false,
        bit_depth := 8, audio_streams := [], subtitle_count := 0,
        library_type := "movie", priority_tier := 0, tier_name := "t" }
      "/staging"
      { cq := fun _ _ => none, nvenc_preset := fun _ _ => none,
        nvenc_multipass := fun _ _ => none, nvenc_lookahead := fun _ _ => none,
        nvenc_maxrate := fun _ _ => none, nvenc_bufsize := fun _ _ => none,
        overwrite_existing := false, replace_original := true,
        max_staging_bytes := 5, max_fetch_buffer_bytes := 100,
        min_free_space_bytes := 0, verify_duration_tolerance_secs := 2,
        priority_tiers := [] }
      (fun _ => none) (fun _ => none)
      { staging_usage := 0, free_space := 1000, fetch_usage := 0,
        hash12 := fun _ => "0123456789ab", copy_ok := true,
        copy_error := "", now := "t" }
      = (none, fun _ => none, fun _ => none) := by
  exact stage_fetch_gate_no_state_change _ _ _ _ _ _ (Or.inl (by decide))

/-- Claim C5: the atomic FETCHING claim gives mutual exclusion.  Inside one
critical section `fetch_claim` either observes FETCHING and returns
immediately with no transition, or transitions the record to FETCHING and
records the intended local path; consequently, of two critical sections on
the same source path executed one after the other (the lock serializes
them), at most one can succeed, so two concurrent callers can never both
proceed to the copy.  `stage_fetch` itself returns `None` with the store
unchanged when the record is already FETCHING. -/
theorem fetch_claim_mutual_exclusion (st : Store) (source lp1 lp2 n1 n2 : String) :
    (getField st source "status" = some (Val.str "fetching") →
       fetch_claim st source lp1 n1 = (false, st)) ∧
    ((fetch_claim st source lp1 n1).1 = true →
       getField (fetch_claim st source lp1 n1).2 source "status"
           = some (Val.str "fetching") ∧
       getField (fetch_claim st source lp1 n1).2 source "local_path"
           = some (Val.str lp1) ∧
       (fetch_claim (fetch_claim st source lp1 n1).2 source lp2 n2).1 = false) ∧
    ¬ ((fetch_claim st source lp1 n1).1 = true ∧
       (fetch_claim (fetch_claim st source lp1 n1).2 source lp2 n2).1 = true) ∧
    (∀ (item : WorkItem) (staging_dir : String) (config : Config) (fs : FS)
       (env : FetchEnv),
       item.filepath = source →
       ¬ env.staging_usage + item.file_size_bytes > config.max_staging_bytes →
       ¬ env.free_space < config.min_free_space_bytes + item.file_size_bytes →
       ¬ env.fetch_usage + item.file_size_bytes > config.max_fetch_buffer_bytes →
       fsExists fs source = true →
       getField st source "status" = some (Val.str "fetching") →
       stage_fetch item staging_dir config st fs env = (none, st, fs)) := by
  have hstatus : ∀ (st2 : Store) (kw : List (String × Val)) (n : String),
      "status" ∉ kw.map Prod.fst →
      getField (set_file st2 source FileStatus.fetching kw n) source "status"
        = some (Val.str "fetching") := by
    intro st2 kw n hkw
    simp only [getField, set_file, if_pos rfl, Option.some_bind]
    rw [Entry.setAll_not_mem _ _ _ hkw, Entry.set_ne _ _ _ _ (by decide)]
    simp [Entry.set, FileStatus.value]
  refine ⟨?_, ?_, ?_, ?_⟩
  · intro h
    simp only [fetch_claim, FileStatus.value] at h ⊢
    rw [if_pos h]
  · intro h1
    by_cases hcur : getField st source "status" = some (Val.str FileStatus.fetching.value)
    · simp only [fetch_claim, if_pos hcur] at h1
      exact absurd h1 (by decide)
    · have hres : fetch_claim st source lp1 n1
          = (true, set_file st source FileStatus.fetching
              [("local_path", Val.str lp1)] n1) := by
        simp only [fetch_claim, if_neg hcur]
      rw [hres]
      refine ⟨hstatus st [("local_path", Val.str lp1)] n1 (by simp), ?_, ?_⟩
      · simp only [getField, set_file, if_pos rfl, Option.some_bind]
        simp [Entry.setAll, Entry.set]
      · have h2 : getField (set_file st source FileStatus.fetching
            [("local_path", Val.str lp1)] n1) source "status"
            = some (Val.str "fetching") :=
          hstatus st [("local_path", Val.str lp1)] n1 (by simp)
        simp only [fetch_claim, FileStatus.value, if_pos h2]
  · intro hcontr
    obtain ⟨h1, h2⟩ := hcontr
    by_cases hcur : getField st source "status" = some (Val.str FileStatus.fetching.value)
    · simp only [fetch_claim, if_pos hcur] at h1
      exact absurd h1 (by decide)
    · have hres : fetch_claim st source lp1 n1
          = (true, set_file st source FileStatus.fetching
              [("local_path", Val.str lp1)] n1) := by
        simp only [fetch_claim, if_neg hcur]
      rw [hres] at h2
      have h3 : getField (set_file st source FileStatus.fetching
          [("local_path", Val.str lp1)] n1) source "status"
          = some (Val.str "fetching") :=
        hstatus st [("local_path", Val.str lp1)] n1 (by simp)
      simp only [fetch_claim, FileStatus.value, if_pos h3] at h2
      exact absurd h2 (by decide)
  · intro item staging_dir config fs env hfp hg1 hg2 hg3 hex hcur
    have hclaim : fetch_claim st source
        (joinPath (joinPath staging_dir "fetch")
          (env.hash12 source ++ "_" ++ item.filename)) env.now = (false, st) := by
      simp only [fetch_claim, FileStatus.value]
      rw [if_pos hcur]
    simp only [stage_fetch, hfp]
    rw [if_neg hg1, if_neg hg2, if_neg hg3, if_neg (by rw [hex]; decide), hclaim]

/-- Witness for `fetch_claim_mutual_exclusion`: starting from an untracked
path, the first claim succeeds and the second fails. -/
theorem fetch_claim_mutual_exclusion_witness :
    (fetch_claim (fun _ => none) "/nas/a.mkv" "L1" "t1").1 = true ∧
    (fetch_claim (fetch_claim (fun _ => none) "/nas/a.mkv" "L1" "t1").2
       "/nas/a.mkv" "L2" "t2").1 = false := by
  have h := (fetch_claim_mutual_exclusion (fun _ => none) "/nas/a.mkv" "L1" "L2" "t1" "t2").2.1
    (by decide)
  exact ⟨by decide, h.2.2⟩

/-! ## Upload stage (src/pipeline/stages.py, `stage_upload`) -/

/-- Embedding of `stage_upload` (stages.py lines 106-156).  The record's
`output_path` is read; a missing, non-string or empty value — or a path
absent from disk — transitions ERROR.  The destination is the source's
directory with filename `stem + ".av1.mkv"`; when it already exists and
overwrite is disabled the record transitions SKIPPED with reason
"destination exists" and the local encoded file is removed; otherwise the
record transitions UPLOADING, the copy runs (success is the `copy_ok`
input), and on success the record transitions UPLOADED and the local
encoded file is removed. -/
def stage_upload (source_filepath : String) (item : WorkItem) (staging_dir : String)
    (config : Config) (st : Store) (fs : FS) (now : String)
    (copy_ok : Bool) (copy_error : String) : Bool × Store × FS :=
  match get_file st source_filepath with
  | none => (false, st, fs)
  | some file_info =>
    match file_info "output_path" with
    | some (Val.str output_path) =>
        if output_path = "" ∨ fsExists fs output_path = false then
          (false,
           set_file st source_filepath FileStatus.error
             [("error", Val.str "encoded file missing"), ("stage", Val.str "upload")] now,
           fs)
        else
          let source_dir := dirname source_filepath
          let dest_filename := stem item.filename ++ ".av1.mkv"
          let dest_path := joinPath source_dir dest_filename
          if fsExists fs dest_path = true ∧ config.overwrite_existing = false then
            (true,
             set_file st source_filepath FileStatus.skipped
               [("reason", Val.str "destination exists"),
                ("dest_path", Val.str dest_path)] now,
             if fsExists fs output_path then fsRemove fs output_path else fs)
          else
            let st1 := set_file st source_filepath FileStatus.uploading
              [("dest_path", Val.str dest_path)] now
            if copy_ok then
              (true,
               set_file st1 source_filepath FileStatus.uploaded
                 [("dest_path", Val.str dest_path)] now,
               fsRemove (fsCopy fs output_path dest_path) output_path)
            else
              (false,
               set_file st1 source_filepath FileStatus.error
                 [("error", Val.str copy_error), ("stage", Val.str "upload")] now,
               fs)
    | _ =>
        (false,
         set_file st source_filepath FileStatus.error
           [("error", Val.str "encoded file missing"), ("stage", Val.str "upload")] now,
         fs)

/-- Claim C8: in `stage_upload`, when the destination `.av1.mkv` path
already exists and overwriting is disabled, the FileRecord transitions to
SKIPPED with reason "destination exists", the locally staged encoded file
is removed, the destination is left untouched (no upload copy is
performed), and the call reports success (no ERROR transition). -/
theorem stage_upload_dest_exists_skips (source_filepath : String) (item : WorkItem)
    (staging_dir : String) (config : Config) (st : Store) (fs : FS) (now : String)
    (copy_ok : Bool) (copy_error : String)
    (file_info : Entry) (output_path : String)
    (hrec : get_file st source_filepath = some file_info)
    (hop : file_info "output_path" = some (Val.str output_path))
    (hopne : ¬ output_path = "")
    (hopex : fsExists fs output_path = true)
    (hdest : fsExists fs
      (joinPath (dirname source_filepath) (stem item.filename ++ ".av1.mkv")) = true)
    (how : config.overwrite_existing = false)
    (hne : joinPath (dirname source_filepath) (stem item.filename ++ ".av1.mkv")
      ≠ output_path) :
    stage_upload source_filepath item staging_dir config st fs now copy_ok copy_error
      = (true,
         set_file st source_filepath FileStatus.skipped
           [("reason", Val.str "destination exists"),
            ("dest_path", Val.str (joinPath (dirname source_filepath)
              (stem item.filename ++ ".av1.mkv")))] now,
         fsRemove fs output_path) ∧
    getField (stage_upload source_filepath item staging_dir config st fs now
        copy_ok copy_error).2.1 source_filepath "status"
      = some (Val.str "skipped") ∧
    getField (stage_upload source_filepath item staging_dir config st fs now
        copy_ok copy_error).2.1 source_filepath "reason"
      = some (Val.str "destination exists") ∧
    (stage_upload source_filepath item staging_dir config st fs now
        copy_ok copy_error).2.2 output_path = none ∧
    (stage_upload source_filepath item staging_dir config st fs now
        copy_ok copy_error).2.2 (joinPath (dirname source_filepath)
          (stem item.filename ++ ".av1.mkv"))
      = fs (joinPath (dirname source_filepath) (stem item.filename ++ ".av1.mkv")) ∧
    getField (stage_upload source_filepath item staging_dir config st fs now
        copy_ok copy_error).2.1 source_filepath "status"
      ≠ some (Val.str "error") := by
  have hmain : stage_upload source_filepath item staging_dir config st fs now copy_ok copy_error
      = (true,
         set_file st source_filepath FileStatus.skipped
           [("reason", Val.str "destination exists"),
            ("dest_path", Val.str (joinPath (dirname source_filepath)
              (stem item.filename ++ ".av1.mkv")))] now,
         fsRemove fs output_path) := by
    simp only [stage_upload, hrec, hop]
    rw [if_neg (by simp [hopne, hopex]), if_pos ⟨hdest, how⟩, if_pos hopex]
  have hstatus : getField (set_file st source_filepath FileStatus.skipped
      [("reason", Val.str "destination exists"),
       ("dest_path", Val.str (joinPath (dirname source_filepath)
         (stem item.filename ++ ".av1.mkv")))] now) source_filepath "status"
      = some (Val.str "skipped") := by
    simp only [getField, set_file, if_pos rfl, Option.some_bind]
    rw [Entry.setAll_not_mem _ _ _ (by simp), Entry.set_ne _ _ _ _ (by decide)]
    simp [Entry.set, FileStatus.value]
  have hreason : getField (set_file st source_filepath FileStatus.skipped
      [("reason", Val.str "destination exists"),
       ("dest_path", Val.str (joinPath (dirname source_filepath)
         (stem item.filename ++ ".av1.mkv")))] now) source_filepath "reason"
      = some (Val.str "destination exists") := by
    simp only [getField, set_file, if_pos rfl, Option.some_bind]
    simp [Entry.setAll, Entry.set]
  refine ⟨hmain, ?_, ?_, ?_, ?_, ?_⟩
  · rw [hmain]; exact hstatus
  · rw [hmain]; exact hreason
  · rw [hmain]; simp [fsRemove]
  · rw [hmain]
    simp [fsRemove, hne]
  · rw [hmain]
    rw [hstatus]
    simp

/-- Witness for `stage_upload_dest_exists_skips`: an encoded item whose
destination `.av1.mkv` already exists on the NAS transitions to SKIPPED. -/
theorem stage_upload_dest_exists_skips_witness :
    getField (stage_upload "/nas/m.avi"
      { filepath := "/nas/m.avi", filename := "m.avi", file_size_bytes := 10,
        file_size_gb := 1, duration_seconds := 100, video_codec := "H.264",
        resolution := "1080p", bitrate_kbps := 5000, hdr := false,
        bit_depth := 8, audio_streams := [], subtitle_count := 0,
        library_type := "movie", priority_tier := 0, tier_name := "t" }
      "/staging"
      { cq := fun _ _ => none, nvenc_preset := fun _ _ => none,
        nvenc_multipass := fun _ _ => none, nvenc_lookahead := fun _ _ => none,
        nvenc_maxrate := fun _ _ => none, nvenc_bufsize := fun _ _ => none,
        overwrite_existing := false, replace_original := true,
        max_staging_bytes := 100, max_fetch_buffer_bytes := 100,
        min_free_space_bytes := 0, verify_duration_tolerance_secs := 2,
        priority_tiers := [] }
      (fun q => if q = "/nas/m.avi" then
          some ((emptyEntry.set "status" (Val.str "encoded")).set "output_path"
            (Val.str "/staging/encoded/m.mkv"))
        else none)
      (fun q => if q = "/staging/encoded/m.mkv" then some (FileContent.data "enc")
        else if q = "/nas/m.av1.mkv" then some FileContent.av1 else none)
      "t" true "").2.1 "/nas/m.avi" "status" = some (Val.str "skipped") := by
  exact (stage_upload_dest_exists_skips "/nas/m.avi"
    { filepath := "/nas/m.avi", filename := "m.avi", file_size_bytes := 10,
      file_size_gb := 1, duration_seconds := 100, video_codec := "H.264",
      resolution := "1080p", bitrate_kbps := 5000, hdr := false,
      bit_depth := 8, audio_streams := [], subtitle_count := 0,
      library_type := "movie", priority_tier := 0, tier_name := "t" }
    "/staging"
    { cq := fun _ _ => none, nvenc_preset := fun _ _ => none,
      nvenc_multipass := fun _ _ => none, nvenc_lookahead := fun _ _ => none,
      nvenc_maxrate := fun _ _ => none, nvenc_bufsize := fun _ _ => none,
      overwrite_existing := false, replace_original := true,
      max_staging_bytes := 100, max_fetch_buffer_bytes := 100,
      min_free_space_bytes := 0, verify_duration_tolerance_secs := 2,
      priority_tiers := [] }
    (fun q => if q = "/nas/m.avi" then
        some ((emptyEntry.set "status" (Val.str "encoded")).set "output_path"
          (Val.str "/staging/encoded/m.mkv"))
      else none)
    (fun q => if q = "/staging/encoded/m.mkv" then some (FileContent.data "enc")
      else if q = "/nas/m.av1.mkv" then some FileContent.av1 else none)
    "t" true ""
    ((emptyEntry.set "status" (Val.str "encoded")).set "output_path"
      (Val.str "/staging/encoded/m.mkv"))
    "/staging/encoded/m.mkv"
    rfl rfl (by decide) (by decide) (by decide) rfl (by decide)).2.1

/-! ## Replace stage (src/pipeline/stages.py, `stage_replace`) -/

/-- Embedding of `stage_replace` (stages.py lines 221-275).  Given the
record's `dest_path` D (the `.av1.mkv` on the NAS), the final path F
(source directory, original stem + ".mkv") and the backup path
B = source + ".original.bak": the record is set to REPLACING, then
step 1 renames S to B when S exists and B does not; step 2 renames D to F
when D exists and F does not, or force-replaces D over F when both exist
and D differs from F; step 3 deletes B when it exists; finally the record
is set to REPLACED with `final_path = F`.  A missing/empty `dest_path`, or
D absent from disk, transitions ERROR with "av1 file missing for replace"
before any rename runs. -/
def stage_replace (source_filepath : String) (item : WorkItem) (config : Config)
    (st : Store) (fs : FS) (now : String) : Bool × Store × FS :=
  match get_file st source_filepath with
  | none => (false, st, fs)
  | some file_info =>
    match file_info "dest_path" with
    | some (Val.str dest_path) =>
        if dest_path = "" ∨ fsExists fs dest_path = false then
          (false,
           set_file st source_filepath FileStatus.error
             [("error", Val.str "av1 file missing for replace"),
              ("stage", Val.str "replace")] now,
           fs)
        else
          let source_dir := dirname source_filepath
          let final_name := stem item.filename ++ ".mkv"
          let final_path := joinPath source_dir final_name
          let backup_path := source_filepath ++ ".original.bak"
          let st1 := set_file st source_filepath FileStatus.replacing
            [("dest_path", Val.str dest_path), ("final_path", Val.str final_path),
             ("backup_path", Val.str backup_path)] now
          let fs1 :=
            if fsExists fs source_filepath = true ∧ fsExists fs backup_path = false then
              fsRename fs source_filepath backup_path
            else fs
          let fs2 :=
            if fsExists fs1 dest_path = true ∧ fsExists fs1 final_path = false then
              fsRename fs1 dest_path final_path
            else if fsExists fs1 dest_path = true ∧ dest_path ≠ final_path then
              fsRename fs1 dest_path final_path
            else fs1
          let fs3 :=
            if fsExists fs2 backup_path = true then fsRemove fs2 backup_path else fs2
          let st2 := set_file st1 source_filepath FileStatus.replaced
            [("final_path", Val.str final_path)] now
          (true, st2, fs3)
    | _ =>
        (false,
         set_file st source_filepath FileStatus.error
           [("error", Val.str "av1 file missing for replace"),
            ("stage", Val.str "replace")] now,
         fs)

/-- Claim C2: evaluation of `stage_replace` at the filesystem state left by
a crash right after step 2 of the protocol (original already renamed to the
backup B, the AV1 file already renamed from D to the final target F, B not
yet deleted, record still REPLACING with `dest_path = D`).  Re-invocation
does not converge to REPLACED: the `dest_path` existence guard at the top
of the function fires — D no longer exists — so the record transitions to
ERROR with "av1 file missing for replace" and the call returns failure,
leaving the backup B in place.  This contradicts the claimed idempotence
from any partial prefix of the rename sequence (and the function's own
docstring, "On crash during REPLACING, resume detects and completes the
sequence"). -/
theorem stage_replace_errors_after_step2 :
    (stage_replace "/nas/m.avi"
      { filepath := "/nas/m.avi", filename := "m.avi", file_size_bytes := 10,
        file_size_gb := 1, duration_seconds := 100, video_codec := "H.264",
        resolution := "1080p", bitrate_kbps := 5000, hdr := false,
        bit_depth := 8, audio_streams := [], subtitle_count := 0,
        library_type := "movie", priority_tier := 0, tier_name := "t" }
      { cq := fun _ _ => none, nvenc_preset := fun _ _ => none,
        nvenc_multipass := fun _ _ => none, nvenc_lookahead := fun _ _ => none,
        nvenc_maxrate := fun _ _ => none, nvenc_bufsize := fun _ _ => none,
        overwrite_existing := false, replace_original := true,
        max_staging_bytes := 100, max_fetch_buffer_bytes := 100,
        min_free_space_bytes := 0, verify_duration_tolerance_secs := 2,
        priority_tiers := [] }
      (fun q => if q = "/nas/m.avi" then
          some (((emptyEntry.set "status" (Val.str "replacing")).set "dest_path"
            (Val.str "/nas/m.av1.mkv")).set "final_path" (Val.str "/nas/m.mkv"))
        else none)
      (fun q => if q = "/nas/m.avi.original.bak" then some FileContent.original
        else if q = "/nas/m.mkv" then some FileContent.av1 else none)
      "t").1 = false ∧
    getField (stage_replace "/nas/m.avi"
      { filepath := "/nas/m.avi", filename := "m.avi", file_size_bytes := 10,
        file_size_gb := 1, duration_seconds := 100, video_codec := "H.264",
        resolution := "1080p", bitrate_kbps := 5000, hdr := false,
        bit_depth := 8, audio_streams := [], subtitle_count := 0,
        library_type := "movie", priority_tier := 0, tier_name := "t" }
      { cq := fun _ _ => none, nvenc_preset := fun _ _ => none,
        nvenc_multipass := fun _ _ => none, nvenc_lookahead := fun _ _ => none,
        nvenc_maxrate := fun _ _ => none, nvenc_bufsize := fun _ _ => none,
        overwrite_existing := false, replace_original := true,
        max_staging_bytes := 100, max_fetch_buffer_bytes := 100,
        min_free_space_bytes := 0, verify_duration_tolerance_secs := 2,
        priority_tiers := [] }
      (fun q => if q = "/nas/m.avi" then
          some (((emptyEntry.set "status" (Val.str "replacing")).set "dest_path"
            (Val.str "/nas/m.av1.mkv")).set "final_path" (Val.str "/nas/m.mkv"))
        else none)
      (fun q => if q = "/nas/m.avi.original.bak" then some FileContent.original
        else if q = "/nas/m.mkv" then some FileContent.av1 else none)
      "t").2.1 "/nas/m.avi" "status" = some (Val.str "error") ∧
    getField (stage_replace "/nas/m.avi"
      { filepath := "/nas/m.avi", filename := "m.avi", file_size_bytes := 10,
        file_size_gb := 1, duration_seconds := 100, video_codec := "H.264",
        resolution := "1080p", bitrate_kbps := 5000, hdr := false,
        bit_depth := 8, audio_streams := [], subtitle_count := 0,
        library_type := "movie", priority_tier := 0, tier_name := "t" }
      { cq := fun _ _ => none, nvenc_preset := fun _ _ => none,
        nvenc_multipass := fun _ _ => none, nvenc_lookahead := fun _ _ => none,
        nvenc_maxrate := fun _ _ => none, nvenc_bufsize := fun _ _ => none,
        overwrite_existing := false, replace_original := true,
        max_staging_bytes := 100, max_fetch_buffer_bytes := 100,
        min_free_space_bytes := 0, verify_duration_tolerance_secs := 2,
        priority_tiers := [] }
      (fun q => if q = "/nas/m.avi" then
          some (((emptyEntry.set "status" (Val.str "replacing")).set "dest_path"
            (Val.str "/nas/m.av1.mkv")).set "final_path" (Val.str "/nas/m.mkv"))
        else none)
      (fun q => if q = "/nas/m.avi.original.bak" then some FileContent.original
        else if q = "/nas/m.mkv" then some FileContent.av1 else none)
      "t").2.1 "/nas/m.avi" "error" = some (Val.str "av1 file missing for replace") := by
  refine ⟨rfl, rfl, rfl⟩

/-! ## Orchestrator zombie recovery (src/pipeline/runner.py, `process_item`) -/

/-- Python truthiness and existence test for the recovered record's
`local_path`: the value `(existing or \x7b\x7d).get("local_path", "")` is falsy
when the key is absent or empty, and the zombie test also fires when the
path does not exist on disk. -/
def local_path_missing (lp : Option Val) (fs : FS) : Bool :=
  match lp with
  | some (Val.str p) => p = "" ∨ fsExists fs p = false
  | _ => true

/-- Embedding of the entry block of `Pipeline.process_item` (runner.py
lines 274-291): read the record and its status, and recover zombie states —
if the status is FETCHING, ENCODING or UPLOADING and the associated
temporary file (`local_path`) is absent, reset the record to PENDING.
Returns the updated store together with `current_status` as the subsequent
stage dispatch of `process_item` sees it. -/
def process_item_recover (st : Store) (filepath : String) (fs : FS) (now : String) :
    Store × Option Val :=
  let existing := get_file st filepath
  let current_status : Option Val := existing.bind (fun e => e "status")
  if current_status = some (Val.str FileStatus.fetching.value) ∨
     current_status = some (Val.str FileStatus.encoding.value) ∨
     current_status = some (Val.str FileStatus.uploading.value) then
    let local_path : Option Val := existing.bind (fun e => e "local_path")
    if local_path_missing local_path fs then
      (set_file st filepath FileStatus.pending [] now,
       some (Val.str FileStatus.pending.value))
    else (st, current_status)
  else (st, current_status)

/-- The stage-dispatch guards of `process_item` (runner.py lines 295, 312,
323, 334, 346, 351): which branch a given `current_status` value enables. -/
def dispatch_inline_fetch (s : Option Val) : Bool :=
  s = none ∨ s = some (Val.str FileStatus.pending.value)

/-- Claim C3: a record whose status is FETCHING, ENCODING or UPLOADING at
the start of `process_item` and whose associated temporary file
(`local_path`) is absent on disk is reset to PENDING — the stored status
becomes "pending" and the dispatch variable is "pending", so the only
stage branch enabled afterwards is the inline fetch (none of the
encode / upload / verify / replace branches, which require FETCHED,
ENCODED, UPLOADED, VERIFIED or REPLACING, can fire). -/
theorem process_item_zombie_reset (st : Store) (filepath : String) (fs : FS)
    (now : String)
    (hz : getStatus st filepath = some (Val.str "fetching") ∨
          getStatus st filepath = some (Val.str "encoding") ∨
          getStatus st filepath = some (Val.str "uploading"))
    (habs : local_path_missing (getField st filepath "local_path") fs = true) :
    process_item_recover st filepath fs now
      = (set_file st filepath FileStatus.pending [] now, some (Val.str "pending")) ∧
    getStatus (process_item_recover st filepath fs now).1 filepath
      = some (Val.str "pending") ∧
    dispatch_inline_fetch (process_item_recover st filepath fs now).2 = true := by
  have hz2 : (get_file st filepath).bind (fun e => e "status")
        = some (Val.str FileStatus.fetching.value) ∨
      (get_file st filepath).bind (fun e => e "status")
        = some (Val.str FileStatus.encoding.value) ∨
      (get_file st filepath).bind (fun e => e "status")
        = some (Val.str FileStatus.uploading.value) := hz
  have habs2 : local_path_missing
      ((get_file st filepath).bind (fun e => e "local_path")) fs = true := habs
  have hmain : process_item_recover st filepath fs now
      = (set_file st filepath FileStatus.pending [] now,
         some (Val.str FileStatus.pending.value)) := by
    simp only [process_item_recover]
    rw [if_pos hz2, if_pos habs2]
  refine ⟨hmain, ?_, ?_⟩
  · rw [hmain]
    simp only [getStatus, getField, set_file, if_pos rfl, Option.some_bind]
    simp [Entry.setAll, Entry.set, FileStatus.value]
  · rw [hmain]
    simp [dispatch_inline_fetch, FileStatus.value]

/-- Witness for `process_item_zombie_reset`: an ENCODING record whose
fetched local file is gone is reset to PENDING. -/
theorem process_item_zombie_reset_witness :
    getStatus (process_item_recover
      (fun q => if q = "/nas/a.mkv" then
          some ((emptyEntry.set "status" (Val.str "encoding")).set "local_path"
            (Val.str "/staging/fetch/ab_a.mkv"))
        else none)
      "/nas/a.mkv" (fun _ => none) "t").1 "/nas/a.mkv"
      = some (Val.str "pending") := by
  exact (process_item_zombie_reset
    (fun q => if q = "/nas/a.mkv" then
        some ((emptyEntry.set "status" (Val.str "encoding")).set "local_path"
          (Val.str "/staging/fetch/ab_a.mkv"))
      else none)
    "/nas/a.mkv" (fun _ => none) "t"
    (Or.inr (Or.inl (by decide))) (by decide)).2.1

/-! ## Queue builder (src/pipeline/queue.py, `build_priority_queue`) -/

/-- The nested `video` object of a media-report entry; every field is read
with `.get` and a default, so each is optional. -/
structure RVideo where
  codec : Option String
  codec_raw : Option String
  resolution_class : Option String
  hdr : Option Bool
  bit_depth : Option Nat
deriving Repr

/-- One entry of the media report's `files` array (spec 6.1).  Fields read
by direct indexing are required; fields read with `.get` are optional. -/
structure ReportFile where
  filepath : String
  filename : String
  file_size_bytes : Nat
  file_size_gb : Rat
  duration_seconds : Option Rat
  overall_bitrate_kbps : Option Rat
  video : Option RVideo
  audio_streams : Option (List AudioStream)
  subtitle_count : Option Nat
  library_type : Option String
deriving Repr

/-- Read `video.get("codec", "")` of an entry. -/
def report_codec (f : ReportFile) : String := (f.video.bind (fun v => v.codec)).getD ""

/-- Read `video.get("codec_raw", "")` of an entry. -/
def report_codec_raw (f : ReportFile) : String :=
  (f.video.bind (fun v => v.codec_raw)).getD ""

/-- Read `video.get("resolution_class", "")` of an entry. -/
def report_resolution (f : ReportFile) : String :=
  (f.video.bind (fun v => v.resolution_class)).getD ""

/-- Read `f.get("overall_bitrate_kbps", 0) or 0` of an entry. -/
def report_bitrate (f : ReportFile) : Rat := f.overall_bitrate_kbps.getD 0

/-- One tier predicate of the assignment loop (queue.py lines 46-55):
optional codec and resolution constraints plus inclusive bitrate bounds,
where an absent `max_bitrate_kbps` key means `float("inf")`. -/
def tier_matches (tier : Tier) (codec resolution : String) (bitrate : Rat) : Bool :=
  (decide (tier.codec = none ∨ tier.codec = some codec)) &&
  (decide (tier.resolution = none ∨ tier.resolution = some resolution)) &&
  (decide (tier.min_bitrate_kbps.getD 0 ≤ bitrate)) &&
  (match tier.max_bitrate_kbps with
   | none => true
   | some m => decide (bitrate ≤ m))

/-- The tier-assignment loop: index of the first matching tier, or the
number of tiers (the synthetic lowest-priority default) when none match. -/
def tier_index (tiers : List Tier) (codec resolution : String) (bitrate : Rat) : Nat :=
  match tiers with
  | [] => 0
  | t :: rest =>
      if tier_matches t codec resolution bitrate then 0
      else tier_index rest codec resolution bitrate + 1

/-- The dict appended to the queue for one report entry (queue.py lines
57-73). -/
def make_work_item (config : Config) (f : ReportFile) : WorkItem :=
  let codec := report_codec f
  let resolution := report_resolution f
  let bitrate := report_bitrate f
  let tier_idx := tier_index config.priority_tiers codec resolution bitrate
  { filepath := f.filepath,
    filename := f.filename,
    file_size_bytes := f.file_size_bytes,
    file_size_gb := f.file_size_gb,
    duration_seconds := f.duration_seconds.getD 0,
    video_codec := codec,
    resolution := resolution,
    bitrate_kbps := bitrate,
    hdr := (f.video.bind (fun v => v.hdr)).getD false,
    bit_depth := (f.video.bind (fun v => v.bit_depth)).getD 8,
    audio_streams := f.audio_streams.getD [],
    subtitle_count := f.subtitle_count.getD 0,
    library_type := f.library_type.getD "",
    priority_tier := tier_idx,
    tier_name :=
      match config.priority_tiers.get? tier_idx with
      | some t => t.name
      | none => "other" }

/-- The terminal check of the loop (queue.py lines 40-42):
`existing and existing["status"] in (VERIFIED.value, SKIPPED.value)`. -/
def is_terminal_vs (st : Store) (filepath : String) : Bool :=
  match get_file st filepath with
  | some e => e "status" = some (Val.str FileStatus.verified.value) ∨
              e "status" = some (Val.str FileStatus.skipped.value)
  | none => false

/-- The per-entry loop of `build_priority_queue` (queue.py lines 17-73):
already-AV1 and unknown-codec entries are skipped (marked SKIPPED in the
store when untracked), entries whose record is VERIFIED or SKIPPED are
excluded, and every other entry is appended as a WorkItem. -/
def build_queue_loop (config : Config) (now : String) :
    List ReportFile → Store → List WorkItem × Store
  | [], st => ([], st)
  | f :: rest, st =>
      if report_codec_raw f = "av1" then
        build_queue_loop config now rest
          (match get_file st f.filepath with
           | none => set_file st f.filepath FileStatus.skipped
               [("reason", Val.str "already AV1")] now
           | some _ => st)
      else if report_codec f = "unknown" then
        build_queue_loop config now rest
          (match get_file st f.filepath with
           | none => set_file st f.filepath FileStatus.skipped
               [("reason", Val.str "unknown codec")] now
           | some _ => st)
      else if is_terminal_vs st f.filepath = true then
        build_queue_loop config now rest st
      else
        ((make_work_item config f) :: (build_queue_loop config now rest st).1,
         (build_queue_loop config now rest st).2)

/-- The Python sort key `(x["priority_tier"], -x["file_size_bytes"])` as a
boolean less-or-equal relation: priority tier ascending, then file size
descending. -/
def queue_le (a b : WorkItem) : Bool :=
  decide (a.priority_tier < b.priority_tier ∨
    (a.priority_tier = b.priority_tier ∧ b.file_size_bytes ≤ a.file_size_bytes))

/-- Embedding of `build_priority_queue` (queue.py lines 9-91): run the
per-entry loop, then sort with Python's stable sort under the
(tier ascending, size descending) key.  The trailing logging is pure
output and is omitted. -/
def build_priority_queue (report : List ReportFile) (config : Config)
    (st : Store) (now : String) : List WorkItem × Store :=
  let p := build_queue_loop config now report st
  (p.1.mergeSort queue_le, p.2)

theorem getStatus_set_file_other (st : Store) (fp2 : String) (status : FileStatus)
    (kwargs : List (String × Val)) (now : String) (fp : String) (h : fp ≠ fp2) :
    getStatus (set_file st fp2 status kwargs now) fp = getStatus st fp := by
  simp [getStatus, getField, set_file, h]

theorem is_terminal_vs_of_status (st : Store) (fp : String) (e : Entry)
    (he : st fp = some e)
    (hstat : e "status" = some (Val.str "verified") ∨
             e "status" = some (Val.str "skipped")) :
    is_terminal_vs st fp = true := by
  simp only [is_terminal_vs, get_file, he, decide_eq_true_eq]
  exact hstat

theorem build_queue_loop_excludes (config : Config) (now : String)
    (report : List ReportFile) (st : Store) (fp : String)
    (h : getStatus st fp = some (Val.str "verified") ∨
         getStatus st fp = some (Val.str "skipped")) :
    fp ∉ (build_queue_loop config now report st).1.map (fun w => w.filepath) := by
  induction report generalizing st with
  | nil => simp [build_queue_loop]
  | cons f rest ih =>
      obtain ⟨e, he, hstat⟩ : ∃ e, st fp = some e ∧
          (e "status" = some (Val.str "verified") ∨
           e "status" = some (Val.str "skipped")) := by
        cases hst : st fp with
        | none =>
            exfalso
            rcases h with h | h <;> simp [getStatus, getField, hst] at h
        | some e2 =>
            refine ⟨e2, rfl, ?_⟩
            rcases h with h | h
            · left; simpa [getStatus, getField, hst] using h
            · right; simpa [getStatus, getField, hst] using h
      simp only [build_queue_loop]
      by_cases h1 : report_codec_raw f = "av1"
      · rw [if_pos h1]
        cases hgf : get_file st f.filepath with
        | none =>
            have hne : fp ≠ f.filepath := by
              intro hcontr
              simp only [get_file] at hgf
              rw [← hcontr, he] at hgf
              cases hgf
            apply ih
            rw [getStatus_set_file_other st f.filepath _ _ now fp hne]
            exact h
        | some e2 =>
            exact ih st h
      · rw [if_neg h1]
        by_cases h2 : report_codec f = "unknown"
        · rw [if_pos h2]
          cases hgf : get_file st f.filepath with
          | none =>
              have hne : fp ≠ f.filepath := by
                intro hcontr
                simp only [get_file] at hgf
                rw [← hcontr, he] at hgf
                cases hgf
              apply ih
              rw [getStatus_set_file_other st f.filepath _ _ now fp hne]
              exact h
          | some e2 =>
              exact ih st h
        · rw [if_neg h2]
          by_cases h3 : is_terminal_vs st f.filepath = true
          · rw [if_pos h3]
            exact ih st h
          · rw [if_neg h3]
            simp only [List.map_cons, List.mem_cons]
            push_neg
            constructor
            · intro hcontr
              have hfp : (make_work_item config f).filepath = f.filepath := rfl
              rw [hfp] at hcontr
              apply h3
              rw [hcontr] at he
              exact is_terminal_vs_of_status st f.filepath e he hstat
            · exact ih st h

/-- Claim C1 (amended): `build_priority_queue` excludes every media-report
entry whose FileRecord status is VERIFIED or SKIPPED; records in the other
two terminal statuses, REPLACED and ERROR, are not filtered by the queue
builder (the orchestrator's selection loop skips them later) — see the
counterexample. -/
theorem build_priority_queue_excludes_verified_skipped (report : List ReportFile)
    (config : Config) (st : Store) (now : String) (fp : String)
    (h : getStatus st fp = some (Val.str "verified") ∨
         getStatus st fp = some (Val.str "skipped")) :
    fp ∉ (build_priority_queue report config st now).1.map (fun w => w.filepath) := by
  have hloop := build_queue_loop_excludes config now report st fp h
  have hperm := List.mergeSort_perm (build_queue_loop config now report st).1 queue_le
  have hpm := hperm.map (fun w : WorkItem => w.filepath)
  simp only [build_priority_queue]
  intro hmem
  exact hloop (hpm.mem_iff.mp hmem)

/-- Witness for `build_priority_queue_excludes_verified_skipped`: a
verified record is excluded from a one-entry report. -/
theorem build_priority_queue_excludes_verified_skipped_witness :
    "/nas/a.mkv" ∉ (build_priority_queue
      [{ filepath := "/nas/a.mkv", filename := "a.mkv", file_size_bytes := 10,
         file_size_gb := 1, duration_seconds := some 100,
         overall_bitrate_kbps := some 5000,
         video := some { codec := some "H.264", codec_raw := some "h264",
                         resolution_class := some "1080p", hdr := some false,
                         bit_depth := some 8 },
         audio_streams := some [], subtitle_count := some 0,
         library_type := some "movie" }]
      { cq := fun _ _ => none, nvenc_preset := fun _ _ => none,
        nvenc_multipass := fun _ _ => none, nvenc_lookahead := fun _ _ => none,
        nvenc_maxrate := fun _ _ => none, nvenc_bufsize := fun _ _ => none,
        overwrite_existing := false, replace_original := true,
        max_staging_bytes := 100, max_fetch_buffer_bytes := 100,
        min_free_space_bytes := 0, verify_duration_tolerance_secs := 2,
        priority_tiers := [] }
      (fun q => if q = "/nas/a.mkv" then
          some (emptyEntry.set "status" (Val.str "verified")) else none)
      "t").1.map (fun w => w.filepath) := by
  exact build_priority_queue_excludes_verified_skipped
    [{ filepath := "/nas/a.mkv", filename := "a.mkv", file_size_bytes := 10,
       file_size_gb := 1, duration_seconds := some 100,
       overall_bitrate_kbps := some 5000,
       video := some { codec := some "H.264", codec_raw := some "h264",
                       resolution_class := some "1080p", hdr := some false,
                       bit_depth := some 8 },
       audio_streams := some [], subtitle_count := some 0,
       library_type := some "movie" }]
    { cq := fun _ _ => none, nvenc_preset := fun _ _ => none,
      nvenc_multipass := fun _ _ => none, nvenc_lookahead := fun _ _ => none,
      nvenc_maxrate := fun _ _ => none, nvenc_bufsize := fun _ _ => none,
      overwrite_existing := false, replace_original := true,
      max_staging_bytes := 100, max_fetch_buffer_bytes := 100,
      min_free_space_bytes := 0, verify_duration_tolerance_secs := 2,
      priority_tiers := [] }
    (fun q => if q = "/nas/a.mkv" then
        some (emptyEntry.set "status" (Val.str "verified")) else none)
    "t" "/nas/a.mkv" (Or.inl (by decide))

/-- Claim C1, counterexample to the claim as stated: an entry whose record
is in the terminal status REPLACED is not excluded by
`build_priority_queue` — the source only filters VERIFIED and SKIPPED
(queue.py line 41), so the entry appears in the returned work-item list. -/
theorem build_priority_queue_includes_replaced_cex :
    getStatus
      (fun q => if q = "/nas/a.mkv" then
          some (emptyEntry.set "status" (Val.str "replaced")) else none)
      "/nas/a.mkv" = some (Val.str "replaced") ∧
    ((build_priority_queue
      [{ filepath := "/nas/a.mkv", filename := "a.mkv", file_size_bytes := 10,
         file_size_gb := 1, duration_seconds := some 100,
         overall_bitrate_kbps := some 5000,
         video := some { codec := some "H.264", codec_raw := some "h264",
                         resolution_class := some "1080p", hdr := some false,
                         bit_depth := some 8 },
         audio_streams := some [], subtitle_count := some 0,
         library_type := some "movie" }]
      { cq := fun _ _ => none, nvenc_preset := fun _ _ => none,
        nvenc_multipass := fun _ _ => none, nvenc_lookahead := fun _ _ => none,
        nvenc_maxrate := fun _ _ => none, nvenc_bufsize := fun _ _ => none,
        overwrite_existing := false, replace_original := true,
        max_staging_bytes := 100, max_fetch_buffer_bytes := 100,
        min_free_space_bytes := 0, verify_duration_tolerance_secs := 2,
        priority_tiers := [] }
      (fun q => if q = "/nas/a.mkv" then
          some (emptyEntry.set "status" (Val.str "replaced")) else none)
      "t").1.map (fun w => w.filepath)) = ["/nas/a.mkv"] := by
  refine ⟨rfl, ?_⟩
  have hloop : (build_queue_loop
      { cq := fun _ _ => none, nvenc_preset := fun _ _ => none,
        nvenc_multipass := fun _ _ => none, nvenc_lookahead := fun _ _ => none,
        nvenc_maxrate := fun _ _ => none, nvenc_bufsize := fun _ _ => none,
        overwrite_existing := false, replace_original := true,
        max_staging_bytes := 100, max_fetch_buffer_bytes := 100,
        min_free_space_bytes := 0, verify_duration_tolerance_secs := 2,
        priority_tiers := [] } "t"
      [{ filepath := "/nas/a.mkv", filename := "a.mkv", file_size_bytes := 10,
         file_size_gb := 1, duration_seconds := some 100,
         overall_bitrate_kbps := some 5000,
         video := some { codec := some "H.264", codec_raw := some "h264",
                         resolution_class := some "1080p", hdr := some false,
                         bit_depth := some 8 },
         audio_streams := some [], subtitle_count := some 0,
         library_type := some "movie" }]
      (fun q => if q = "/nas/a.mkv" then
          some (emptyEntry.set "status" (Val.str "replaced")) else none)).1
      = [make_work_item
          { cq := fun _ _ => none, nvenc_preset := fun _ _ => none,
            nvenc_multipass := fun _ _ => none, nvenc_lookahead := fun _ _ => none,
            nvenc_maxrate := fun _ _ => none, nvenc_bufsize := fun _ _ => none,
            overwrite_existing := false, replace_original := true,
            max_staging_bytes := 100, max_fetch_buffer_bytes := 100,
            min_free_space_bytes := 0, verify_duration_tolerance_secs := 2,
            priority_tiers := [] }
          { filepath := "/nas/a.mkv", filename := "a.mkv", file_size_bytes := 10,
            file_size_gb := 1, duration_seconds := some 100,
            overall_bitrate_kbps := some 5000,
            video := some { codec := some "H.264", codec_raw := some "h264",
                            resolution_class := some "1080p", hdr := some false,
                            bit_depth := some 8 },
            audio_streams := some [], subtitle_count := some 0,
            library_type := some "movie" }] := rfl
  simp only [build_priority_queue, hloop, List.mergeSort_singleton]
  rfl

/-- Claim C9: the list returned by `build_priority_queue` is sorted by
priority tier ascending and, within a tier, by file size descending; and
the result is a pure function of the report, configuration and state-store
inputs, so two runs on identical inputs return identical orderings. -/
theorem build_priority_queue_sorted_deterministic (report : List ReportFile)
    (config : Config) (st : Store) (now : String) :
    List.Pairwise (fun a b : WorkItem =>
        a.priority_tier < b.priority_tier ∨
        (a.priority_tier = b.priority_tier ∧ b.file_size_bytes ≤ a.file_size_bytes))
      (build_priority_queue report config st now).1 ∧
    ∀ q1 q2, q1 = (build_priority_queue report config st now).1 →
      q2 = (build_priority_queue report config st now).1 → q1 = q2 := by
  constructor
  · have htrans : ∀ a b c : WorkItem, queue_le a b = true → queue_le b c = true →
        queue_le a c = true := by
      intro a b c hab hbc
      simp only [queue_le, decide_eq_true_eq] at hab hbc ⊢
      omega
    have htotal : ∀ a b : WorkItem, (queue_le a b || queue_le b a) = true := by
      intro a b
      simp only [queue_le, Bool.or_eq_true, decide_eq_true_eq]
      omega
    have hs := List.sorted_mergeSort htrans htotal
      (build_queue_loop config now report st).1
    simp only [build_priority_queue]
    exact hs.imp (fun hab => by
      simpa only [queue_le, decide_eq_true_eq] using hab)
  · intro q1 q2 h1 h2
    rw [h1, h2]
